import Mathlib

/-!
Verification development for the `ncbi-taxonomy-local` taxonomy query engine.

The repository implements a local cache of the NCBI taxonomy database with two
query backends sharing one public contract:

* `TaxonomyRAM` (src/ncbi_taxonomy_local/taxonomy_ram.py) keeps every table as
  a Python dict keyed by *string* taxids;
* `TaxonomySQL` (src/ncbi_taxonomy_local/taxonomy_sql.py) together with the
  abstract base class `Taxonomy` (src/ncbi_taxonomy_local/taxonomy_base.py)
  keeps the tables as relational rows keyed by *integer* taxids.

This file is a shallow embedding of the loaded state of both backends and of
the query operations the claims refer to.  Python dicts are modelled as
association lists (`List (key × value)` with first-match `List.lookup`),
Python sets as lists used only through membership, Python exceptions as an
explicit `Except PyErr` result, and the unbounded recursions of the source as
fuel-indexed functions whose fuel exhaustion models Python's RecursionError.
All definitions are computable so that concrete states can be evaluated
inside proofs.
-/

/-- Python value that is either an `int` or a `str`; used to model call sites
where the source passes either type for a taxid argument. -/
inductive PyVal where
  | int (n : Int)
  | str (s : String)

/-- Python `str()` conversion of a taxid argument (`str(int)` is the decimal
form, `str(str)` is the identity). -/
def pyStr : PyVal → String
  | .int n => toString n
  | .str s => s

/-- Python `==` between possibly differently-typed values: an `int` and a
`str` are never equal, same-typed values compare by value. -/
def pyEq : PyVal → PyVal → Bool
  | .int a, .int b => a == b
  | .str a, .str b => a == b
  | _, _ => false

/-- Exceptions raised by the embedded code.  `exc` is a plain Python
`Exception(message)`; `taxIdInvalid`, `taxIdNotInDB` and `nameClassInvalid`
model the classes imported from the package's `errors` module; `keyError`,
`valueError`, `indexError` and `assertionError` model the built-in Python
exceptions, and `recursionLimit` models Python's RecursionError, raised when
an unbounded recursion exhausts the interpreter stack.  The source defines no
`UninitializedError`, `UnknownIdError`, `UnresolvableIdError` or
`MalformedTreeError`. -/
inductive PyErr where
  | exc (msg : String)
  | taxIdInvalid (msg : String)
  | taxIdNotInDB (msg : String)
  | nameClassInvalid (msg : String)
  | keyError
  | valueError
  | indexError
  | assertionError
  | recursionLimit

/-- First letter uppercased, rest unchanged: Python `name[0].upper() + name[1:]`
(ASCII scope of `Char.toUpper`; all call sites guard against the empty
string, on which Python would raise IndexError). -/
def upperFirst (name : String) : String :=
  match name.data with
  | [] => ""
  | c :: cs => String.mk (c.toUpper :: cs)

/-- First letter lowercased, rest unchanged: Python `name[0].lower() + name[1:]`. -/
def lowerFirst (name : String) : String :=
  match name.data with
  | [] => ""
  | c :: cs => String.mk (c.toLower :: cs)

/-- Python `str.strip()` on a character list: drop leading and trailing
whitespace. -/
def stripChars (cs : List Char) : List Char :=
  ((cs.dropWhile Char.isWhitespace).reverse.dropWhile Char.isWhitespace).reverse

/-- Python `str.strip()` (ASCII whitespace scope). -/
def pyStrip (s : String) : String :=
  String.mk (stripChars s.data)

/-- Digit value of a character, if it is a decimal digit. -/
def digitVal (c : Char) : Option Nat :=
  if c.isDigit then some (c.toNat - 48) else none

/-- Parse a non-empty list of decimal digits into a natural number. -/
def parseNatChars : List Char → Option Nat
  | [] => none
  | cs => cs.foldl (fun acc c =>
      match acc, digitVal c with
      | some a, some d => some (a * 10 + d)
      | _, _ => none) (some 0)

/-- Python `int(string)`: optional sign followed by decimal digits; anything
else raises ValueError. -/
def pyParseInt (s : String) : Except PyErr Int :=
  match s.data with
  | '-' :: rest =>
    match parseNatChars rest with
    | some n => Except.ok (-(n : Int))
    | none => Except.error .valueError
  | cs =>
    match parseNatChars cs with
    | some n => Except.ok (n : Int)
    | none => Except.error .valueError

/-- Python `int(value)` on an `int` or `str` argument. -/
def pyInt : PyVal → Except PyErr Int
  | .int n => Except.ok n
  | .str s => pyParseInt s

/-- Lexicographic comparison of character lists by code point, the order
Python `list.sort()` uses on strings. -/
def lexLe : List Char → List Char → Bool
  | [], _ => true
  | _ :: _, [] => false
  | a :: as, b :: bs => if a < b then true else if b < a then false else lexLe as bs

/-- Python `<=` on strings (code-point lexicographic order). -/
def pyStrLe (s t : String) : Bool :=
  lexLe s.data t.data

/-- Insertion step of the sort used to model Python `list.sort()`. -/
def insertLe {α : Type} (le : α → α → Bool) (a : α) : List α → List α
  | [] => [a]
  | b :: bs => if le a b then a :: b :: bs else b :: insertLe le a bs

/-- Model of Python `list.sort()` with comparison `le`: a structural
insertion sort, chosen over `List.mergeSort` so that concrete states
evaluate inside the kernel.  On lists without duplicate keys (the only lists
the source sorts) any comparison sort produces the same output. -/
def sortLe {α : Type} (le : α → α → Bool) : List α → List α
  | [] => []
  | a :: as => insertLe le a (sortLe le as)

/-- Insert a key into a Python-dict model: replace the value if the key is
present, else append (insertion order preserved). -/
def dictInsert (d : List (String × String)) (k v : String) : List (String × String) :=
  if d.any (fun p => p.1 = k) then
    d.map (fun p => if p.1 = k then (k, v) else p)
  else
    d ++ [(k, v)]

/-- Build a Python dict from a pair sequence (`dict(zip(ks, vs))` followed by
`update`): later occurrences of a key override earlier ones. -/
def dictOfPairs (ps : List (String × String)) : List (String × String) :=
  ps.foldl (fun d p => dictInsert d p.1 p.2) []

/-- One row of `_names_taxids_dict` in the RAM backend: the per-name record
built by `parse_names_dump` (src/ncbi_taxonomy_local/ncbi.py, name-keyed
dict). -/
structure NameTaxidRec where
  tax_id : String
  unique_name : String
  name_class : String
deriving DecidableEq

/-- Loaded class-level state of `TaxonomyRAM`
(src/ncbi_taxonomy_local/taxonomy_ram.py lines 20-35), restricted to the
fields the embedded operations read.  Every table is keyed by string taxids,
exactly as `parse_nodes_dump` / `parse_merged_dump` / `parse_delnodes_dump` /
`parse_names_dump` produce them. -/
structure RamDB where
  taxonomy_initialized : Bool
  taxids_child_parent_dict : List (String × String)
  taxids_merged_dict : List (String × String)
  taxids_deleted_set : List String
  names_taxids_dict : List (String × List NameTaxidRec)

namespace TaxonomyRAM

/-- RAM `taxid_in_db` (taxonomy_ram.py 133-142): membership in the
child-parent dict, the merged dict or the deleted set, after `str()`
normalisation. -/
def taxid_in_db (db : RamDB) (taxid : PyVal) : Bool :=
  let t := pyStr taxid
  ((db.taxids_child_parent_dict.lookup t).isSome
    || (db.taxids_merged_dict.lookup t).isSome
    || db.taxids_deleted_set.contains t)

/-- RAM `taxid_valid` (taxonomy_ram.py 144-152): membership in the
child-parent dict or the merged dict. -/
def taxid_valid (db : RamDB) (taxid : PyVal) : Bool :=
  let t := pyStr taxid
  ((db.taxids_child_parent_dict.lookup t).isSome
    || (db.taxids_merged_dict.lookup t).isSome)

/-- RAM `taxid_in_db_raise` (taxonomy_ram.py 154-161): raises a plain
`Exception` when the taxid is in none of the tables. -/
def taxid_in_db_raise (db : RamDB) (taxid : PyVal) : Except PyErr Unit :=
  let t := pyStr taxid
  if taxid_in_db db (.str t) then Except.ok ()
  else Except.error (.exc ("TaxID: " ++ t ++ " is not in the database."))

/-- RAM `taxid_valid_raise` (taxonomy_ram.py 163-170): raises a plain
`Exception` when the taxid is neither active nor merged. -/
def taxid_valid_raise (db : RamDB) (taxid : PyVal) : Except PyErr Unit :=
  let t := pyStr taxid
  if taxid_valid db (.str t) then Except.ok ()
  else Except.error (.exc ("TaxID: " ++ t ++ " is not valid."))

/-- RAM `taxid_deleted` (taxonomy_ram.py 172-180). -/
def taxid_deleted (db : RamDB) (taxid : PyVal) : Except PyErr Bool := do
  let t := pyStr taxid
  taxid_in_db_raise db (.str t)
  pure (db.taxids_deleted_set.contains t)

/-- RAM `taxid_merged` (taxonomy_ram.py 182-190): Python returns `False` or
the merged-target string; modelled as `none` / `some target`. -/
def taxid_merged (db : RamDB) (taxid : PyVal) : Except PyErr (Option String) := do
  let t := pyStr taxid
  taxid_valid_raise db (.str t)
  pure (db.taxids_merged_dict.lookup t)

/-- RAM `updated_taxid` (taxonomy_ram.py 192-207): Python returns the taxid
itself, the merged target, or `None` for a deleted taxid; modelled as
`Option String`. -/
def updated_taxid (db : RamDB) (taxid : PyVal) : Except PyErr (Option String) := do
  let t := pyStr taxid
  taxid_valid_raise db (.str t)
  let d ← taxid_deleted db (.str t)
  let m ← taxid_merged db (.str t)
  if d = false then
    match m with
    | some mt => pure (some mt)
    | none => pure (some t)
  else
    pure none

/-- Return dict of RAM `taxids_for_name` (taxonomy_ram.py 225-245): the probed
name that matched (or the original input) and the matching records (`None`
when no variant matched). -/
structure NameResult where
  name : String
  tax_ids : Option (List NameTaxidRec)
deriving DecidableEq

/-- The probe loop of RAM `taxids_for_name`: try each name variant in order
and stop at the first one present in the name-keyed dict (the `for`/`break`
loop at taxonomy_ram.py 237-243). -/
def nameProbeLoop (db : RamDB) (res : NameResult) : List String → NameResult
  | [] => res
  | n :: rest =>
    match db.names_taxids_dict.lookup n with
    | some recs => { name := n, tax_ids := some recs }
    | none => nameProbeLoop db res rest

/-- RAM `taxids_for_name` (taxonomy_ram.py 225-245): for a non-empty name,
probe the literal string, the first-letter-uppercased variant and the
first-letter-lowercased variant, in that order. -/
def taxids_for_name (db : RamDB) (name : String) : NameResult :=
  let res : NameResult := { name := name, tax_ids := none }
  if name.length ≠ 0 then
    nameProbeLoop db res [name, upperFirst name, lowerFirst name]
  else
    res

/-- RAM `parent_taxid` (taxonomy_ram.py 317-326): `None` when the updated
taxid is absent from the child-parent dict (including the case where
`updated_taxid` itself returned `None`). -/
def parent_taxid (db : RamDB) (taxid : PyVal) : Except PyErr (Option String) := do
  let t := pyStr taxid
  taxid_valid_raise db (.str t)
  let u ← updated_taxid db (.str t)
  match u with
  | some u1 => pure (db.taxids_child_parent_dict.lookup u1)
  | none => pure none

/-- The inner `recurse_lineage` of RAM `lineage_for_taxid` (taxonomy_ram.py
364-370): append the taxid, stop at the root string `"1"`, otherwise recurse
on `parent_taxid`.  The source recursion is unbounded; `fuel` counts the
remaining recursion budget and its exhaustion models Python's
RecursionError.  When `parent_taxid` returns `None` the source recurses once
more with `None` and then raises inside `parent_taxid(None)`; that raise is
modelled directly. -/
def recurse_lineage (db : RamDB) : Nat → String → List String → Except PyErr (List String)
  | 0, _, _ => Except.error .recursionLimit
  | fuel + 1, t, lineage =>
    let lineage := lineage ++ [t]
    if t = "1" then Except.ok lineage
    else do
      let p ← parent_taxid db (.str t)
      match p with
      | some p1 => recurse_lineage db fuel p1 lineage
      | none => Except.error (.exc ("TaxID: None is not valid."))

/-- The `taxids` field of RAM `lineage_for_taxid` (taxonomy_ram.py 351-378):
validate, resolve, walk to the root and reverse.  The `ranks` and `names`
fields of the returned dict are per-element views of this sequence and are
not needed by any claim. -/
def lineage_taxids (db : RamDB) (fuel : Nat) (taxid : PyVal) : Except PyErr (List String) := do
  let t := pyStr taxid
  taxid_valid_raise db (.str t)
  let newT ← updated_taxid db (.str t)
  match newT with
  | none => pure []
  | some nt => do
    let l ← recurse_lineage db fuel nt []
    pure l.reverse

end TaxonomyRAM

/-- Python `itertools.zip_longest(l1, l2, fillvalue=fill)` on integer lists. -/
def zipLongest : List Int → List Int → Int → List (Int × Int)
  | [], l2, f => l2.map (fun b => (f, b))
  | a :: as, l2, f =>
    match l2 with
    | [] => (a, f) :: zipLongest as [] f
    | b :: bs => (a, b) :: zipLongest as bs f

/-- Assembly step of `path_between_lineages`: given the shared-prefix pairs
and the differing-tail pairs, build the path as the reversed left components
of the tail, the left component of the last shared pair, then the right
components of the tail, with fill values filtered out.  `none` models the
IndexError the source raises when the tail is empty (`paths[0]` on an empty
transpose, which happens exactly when the lineages are equal) or when the
lineages share no prefix (`tuple(shared)[-1]` on an empty sequence). -/
def pathAssemble (shared diff : List (Int × Int)) : Option (List Int) :=
  match diff, shared.getLast? with
  | [], _ => none
  | _ :: _, none => none
  | _ :: _, some s =>
    some ((((diff.map Prod.fst).reverse ++ [s.1]) ++ diff.map Prod.snd).filter
      (fun x => decide (x ≠ -1)))

/-- Core of `path_between_lineages` (taxonomy_base.py 65-72), inlined
identically in RAM `path_between_taxids` (taxonomy_ram.py 404-412): the
shared prefix of the two lineages is computed with `takewhile` over `zip`,
the differing tails with `dropwhile` over `zip_longest` with fill value
`-1`. -/
def pathBetweenLineages (l1 l2 : List Int) : Option (List Int) :=
  pathAssemble ((l1.zip l2).takeWhile (fun p => decide (p.1 = p.2)))
    ((zipLongest l1 l2 (-1)).dropWhile (fun p => decide (p.1 = p.2)))

/-- Loaded genetic-code state shared by the backends
(`_codons`, `_gen_code_id_translation_table_dict`,
`_gen_code_id_start_codons_dict`), as produced by `codons_from_gc_prt_file`
and `parse_gencode_dump` (src/ncbi_taxonomy_local/ncbi.py): both dicts are
keyed by the *string* genetic-code id column of `gencode.dmp`. -/
structure GcState where
  codons : List String
  gen_code_id_translation_table_dict : List (String × String)
  gen_code_id_start_codons_dict : List (String × String)

/-- Return value of `trans_table_for_genetic_code_id` in either backend. -/
structure TransTable where
  trans_table : List (String × String)
  start_codons : List String
  stop_codons : List String
deriving DecidableEq

/-- Python dict indexing `d[gcid]` on a string-keyed dict with a possibly
`int`-typed key: an `int` key never equals a `str` key, so indexing with an
`int` raises KeyError even when the decimal spelling is present. -/
def strKeyDictGet (d : List (String × String)) : PyVal → Except PyErr String
  | .str s =>
    match d.lookup s with
    | some v => Except.ok v
    | none => Except.error PyErr.keyError
  | .int _ => Except.error PyErr.keyError

/-- Python `codons[i]` with IndexError on an out-of-range index. -/
def listIndex (codons : List String) (i : Nat) : Except PyErr String :=
  match codons[i]? with
  | some c => Except.ok c
  | none => Except.error PyErr.indexError

namespace TaxonomyRAM

/-- RAM `trans_table_for_genetic_code_id` (taxonomy_ram.py 509-537): the
genetic-code id is `str()`-normalised before the dict lookups, and the start
and stop codon lists are returned in codon-table order, WITHOUT the sort that
the base-class version performs. -/
def trans_table_for_genetic_code_id (g : GcState) (gcid : PyVal) : Except PyErr TransTable := do
  let gc := pyStr gcid
  let codons := g.codons
  let tt ← strKeyDictGet g.gen_code_id_translation_table_dict (.str gc)
  let sc ← strKeyDictGet g.gen_code_id_start_codons_dict (.str gc)
  let idx_start := ((sc.data.enum.filter (fun p => p.2 = 'M')).map (fun p => p.1))
  let start_codons ← idx_start.mapM (listIndex codons)
  let idx_stop := ((sc.data.enum.filter (fun p => p.2 = '*')).map (fun p => p.1))
  let stop_codons ← idx_stop.mapM (listIndex codons)
  let idx_aa := ((tt.data.enum.filter (fun p => p.2 ≠ '*')).map (fun p => p.1))
  let aa_codons ← idx_aa.mapM (listIndex codons)
  let aas := idx_aa.filterMap (fun i => (tt.data[i]?.map (fun c => String.mk [c])))
  let coding_tbl := aa_codons.zip aas
  let stop_tbl := stop_codons.map (fun c => (c, "*"))
  let tbl := dictOfPairs (coding_tbl ++ stop_tbl)
  pure { trans_table := tbl, start_codons := start_codons, stop_codons := stop_codons }

/-- RAM `shared_taxid_for_taxids` (taxonomy_ram.py 427-443): intersect the
lineages of all the given taxids, take the member of the intersection with
the longest lineage, and return its integer form; `none` models the `None`
returned on an empty input list.  Python iterates the intersection as a
`set`, whose order is unspecified; it is modelled as the deduplicated first
lineage filtered by the remaining lineages, which preserves exactly the
members of the set.  The maximum selection is insensitive to that order
whenever lineage lengths in the intersection are pairwise distinct, which
holds for every table where the intersection members lie on one root path
(always true for the tree-shaped tables the loader produces). -/
def shared_taxid_for_taxids (db : RamDB) (fuel : Nat) (taxids : List PyVal) :
    Except PyErr (Option Int) :=
  match taxids with
  | [] => pure none
  | t0 :: rest => do
    let l0 ← lineage_taxids db fuel t0
    let init := l0.dedup
    let shared ← rest.foldlM (fun acc t => do
        taxid_valid_raise db t
        let l ← lineage_taxids db fuel t
        pure (acc.filter (fun x => l.contains x))) init
    let best ← shared.foldlM (fun (best : List String) x => do
        let l ← lineage_taxids db fuel (.str x)
        pure (if l.length > best.length then l else best)) []
    match best.getLast? with
    | some last => do
      let n ← pyParseInt last
      pure (some n)
    | none => Except.error PyErr.indexError

/-- The hard-coded plastid clade list of RAM `contains_plastid`
(taxonomy_ram.py 499-502), in source order. -/
def taxids_with_plastids : List Int :=
  [33090, 554915, 2686027, 554296, 1401294, 2608240, 3027, 2611352, 33682, 38254,
   2608109, 2489521, 5752, 556282, 136087, 2611341, 2598132, 2763, 2698737, 2683617]

/-- The loop body of RAM `contains_plastid`: return `True` at the first clade
taxid whose shared ancestor with the query is the clade taxid itself. -/
def containsPlastidLoop (db : RamDB) (fuel : Nat) (t : String) :
    List Int → Except PyErr Bool
  | [] => pure false
  | w :: ws => do
    let sh ← shared_taxid_for_taxids db fuel [.int w, .str t]
    if sh = some w then pure true else containsPlastidLoop db fuel t ws

/-- RAM `contains_plastid` (taxonomy_ram.py 494-507). -/
def contains_plastid (db : RamDB) (fuel : Nat) (taxid : PyVal) : Except PyErr Bool := do
  let t := pyStr taxid
  taxid_valid_raise db (.str t)
  containsPlastidLoop db fuel t taxids_with_plastids

/-- RAM `plastid_genetic_code_for_taxid` (taxonomy_ram.py 555-570): note that
this backend returns the code as a STRING (`"0"`, `"32"` or `"11"`), and that
the Balanophoraceae comparison `str(shared) == taxid_bala` compares two
strings here, so the exception branch is live.  When `updated_taxid` of the
Balanophoraceae taxid is `None` (deleted), Python would pass `None` into the
lineage walk and raise there; that raise is modelled directly. -/
def plastid_genetic_code_for_taxid (db : RamDB) (fuel : Nat) (taxid : PyVal) :
    Except PyErr String := do
  let t := pyStr taxid
  taxid_valid_raise db (.str t)
  let cp ← contains_plastid db fuel (.str t)
  if cp = false then pure "0"
  else do
    let bala ← updated_taxid db (.str "25673")
    match bala with
    | some b => do
      let sh ← shared_taxid_for_taxids db fuel [.str b, .str t]
      let shStr := match sh with | some n => toString n | none => "None"
      if shStr = b then pure "32" else pure "11"
    | none => Except.error (.exc ("TaxID: None is not valid."))

/-- The `_check_initialized` decorator of the RAM backend (taxonomy_ram.py
42-51): when the class is not initialized the wrapper PRINTS a message and
returns `None` (modelled as `Except.ok none`); it raises nothing and never
calls the wrapped method. -/
def check_initialized {α : Type} (db : RamDB) (f : RamDB → Except PyErr α) :
    Except PyErr (Option α) :=
  if db.taxonomy_initialized = false then Except.ok none
  else (f db).map some

/-- RAM `path_between_taxids` (taxonomy_ram.py 389-413): validate both
taxids, convert them to `int`, return the one-element path when they are
equal, otherwise combine the two integer lineages through the shared-prefix
computation of `pathBetweenLineages`. -/
def path_between_taxids (db : RamDB) (fuel : Nat) (t1 t2 : PyVal) :
    Except PyErr (List Int) := do
  taxid_valid_raise db t1
  taxid_valid_raise db t2
  let a ← pyInt t1
  let b ← pyInt t2
  if a = b then pure [a]
  else do
    let l1s ← lineage_taxids db fuel (.int a)
    let l2s ← lineage_taxids db fuel (.int b)
    let l1 ← l1s.mapM pyParseInt
    let l2 ← l2s.mapM pyParseInt
    match pathBetweenLineages l1 l2 with
    | some p => pure p
    | none => Except.error PyErr.indexError

end TaxonomyRAM

/-- Base-class `name_variations` (taxonomy_base.py 59-62): the set of the
literal name and its first-letter-uppercased and -lowercased variants,
modelled as a list used only through membership. -/
def name_variations (name : String) : List String :=
  [name, upperFirst name, lowerFirst name]

/-- One row of the `tx_nodes` table
(src/ncbi_taxonomy_local/model_sql.py, class `Node`), restricted to the
columns the embedded operations read. -/
structure SqlNode where
  tax_id : Int
  parent_tax_id : Int
  rank : String
  genetic_code_id : Int
  mitochondrial_genetic_code_id : Option Int
deriving DecidableEq

/-- One row of the `tx_names` table (model_sql.py, class `Name`). -/
structure SqlName where
  tax_id : Int
  name : String
  name_class : String
deriving DecidableEq

/-- Loaded state of `TaxonomySQL` (src/ncbi_taxonomy_local/taxonomy_sql.py):
the node, name, merged and deleted tables reached through `cls._sess`, all
keyed by integer taxids. -/
structure SqlDB where
  taxonomy_initialized : Bool
  nodes : List SqlNode
  names : List SqlName
  merged : List (Int × Int)
  deleted : List Int

namespace TaxonomySQL

/-- SQL `taxid_deleted` (taxonomy_sql.py 85-92): a row with this tax_id
exists in the deleted table. -/
def taxid_deleted (db : SqlDB) (taxid : Int) : Bool :=
  db.deleted.contains taxid

/-- SQL `taxid_merged` (taxonomy_sql.py 94-102): a row with this old_tax_id
exists in the merged table. -/
def taxid_merged (db : SqlDB) (taxid : Int) : Bool :=
  db.merged.any (fun p => p.1 = taxid)

/-- SQL `taxid_active` (taxonomy_sql.py 104-111): a node row with this
tax_id exists. -/
def taxid_active (db : SqlDB) (taxid : Int) : Bool :=
  db.nodes.any (fun n => n.tax_id = taxid)

/-- SQL `updated_taxid` (taxonomy_sql.py 113-129): the taxid itself when
active, the merged target when merged (with `assert len(rslt) == 1`),
the sentinel `-1` when deleted and `-2` when unknown.  No exception is
raised on deleted or unknown taxids. -/
def updated_taxid (db : SqlDB) (taxid : Int) : Except PyErr Int :=
  if taxid_active db taxid then Except.ok taxid
  else if taxid_merged db taxid then
    match (db.merged.filter (fun p => p.1 = taxid)).map (fun p => p.2) with
    | [n] => Except.ok n
    | _ => Except.error PyErr.assertionError
  else if taxid_deleted db taxid then Except.ok (-1)
  else Except.ok (-2)

/-- Base-class `taxid_valid` as inherited by the SQL backend
(taxonomy_base.py 193-199): `updated_taxid(taxid) >= 0`. -/
def taxid_valid (db : SqlDB) (taxid : Int) : Except PyErr Bool := do
  let u ← updated_taxid db taxid
  pure (u ≥ 0)

/-- Base-class `taxid_in_db` (taxonomy_base.py 178-184):
`updated_taxid(taxid) >= -1`. -/
def taxid_in_db (db : SqlDB) (taxid : Int) : Except PyErr Bool := do
  let u ← updated_taxid db taxid
  pure (u ≥ -1)

/-- Base-class `taxid_valid_raise` (taxonomy_base.py 201-206): raises
`TaxIdInvalidError` when the taxid is neither active nor merged. -/
def taxid_valid_raise (db : SqlDB) (taxid : Int) : Except PyErr Unit := do
  let v ← taxid_valid db taxid
  if v = false then Except.error (.taxIdInvalid (toString taxid)) else pure ()

/-- SQL `node_for_taxid` (taxonomy_sql.py 253-265) without the
`_taxid_node_dict` cache, which only memoizes the identical query result
within one session: validate, resolve, then select the unique node row
(`assert len(nodes) == 1`). -/
def node_for_taxid (db : SqlDB) (taxid : Int) : Except PyErr SqlNode := do
  taxid_valid_raise db taxid
  let u ← updated_taxid db taxid
  match db.nodes.filter (fun n => n.tax_id = u) with
  | [n] => pure n
  | _ => Except.error PyErr.assertionError

/-- The inner `recurse_lineage` of SQL `lineage_of_nodes` (taxonomy_sql.py
284-304): append the node and recurse on its `parent` relationship until the
root node is reached.  `n != cls.root_node()` compares object identity with
the cached tax_id-1 node (SQLAlchemy keeps one object per row), modelled as
a tax_id test; `n.parent` is the node row whose tax_id equals
`n.parent_tax_id`.  The recursion is unbounded in the source; fuel
exhaustion models Python's RecursionError. -/
def recurse_lineage (db : SqlDB) : Nat → SqlNode → List SqlNode → Except PyErr (List SqlNode)
  | 0, _, _ => Except.error PyErr.recursionLimit
  | fuel + 1, n, lineage =>
    let lineage := lineage ++ [n]
    if n.tax_id = 1 then pure lineage
    else
      match db.nodes.find? (fun m => m.tax_id = n.parent_tax_id) with
      | some p => recurse_lineage db fuel p lineage
      | none => Except.error (.exc ("parent node missing"))

/-- SQL `lineage_of_nodes` (taxonomy_sql.py 282-304): root-to-node order. -/
def lineage_of_nodes (db : SqlDB) (fuel : Nat) (node : SqlNode) : Except PyErr (List SqlNode) := do
  let l ← recurse_lineage db fuel node []
  pure l.reverse

/-- SQL `lineage_of_taxids` (taxonomy_sql.py 131-138). -/
def lineage_of_taxids (db : SqlDB) (fuel : Nat) (taxid : Int) : Except PyErr (List Int) := do
  let nd ← node_for_taxid db taxid
  let ln ← lineage_of_nodes db fuel nd
  pure (ln.map (fun n => n.tax_id))

/-- SQL `common_node` (taxonomy_sql.py 306-319): intersect the lineages of
the given nodes and return the member with the longest lineage.  Python
iterates the intersection as a `set` (unspecified order); modelled as the
deduplicated first lineage filtered by the others, which has the same
members; the longest-lineage selection does not depend on that order when
the members lie on one root path. -/
def common_node (db : SqlDB) (fuel : Nat) (nodes : List SqlNode) : Except PyErr SqlNode :=
  match nodes with
  | [] => Except.error PyErr.indexError
  | n0 :: rest => do
    let l0 ← lineage_of_nodes db fuel n0
    let init := l0.dedup
    let shared ← rest.foldlM (fun acc n => do
        let l ← lineage_of_nodes db fuel n
        pure (acc.filter (fun x => decide (x ∈ l)))) init
    let best ← shared.foldlM (fun (best : List SqlNode) n => do
        let l ← lineage_of_nodes db fuel n
        pure (if l.length > best.length then l else best)) []
    match best.getLast? with
    | some x => pure x
    | none => Except.error PyErr.indexError

/-- SQL `common_taxid` (taxonomy_sql.py 158-163). -/
def common_taxid (db : SqlDB) (fuel : Nat) (taxids : List Int) : Except PyErr Int := do
  let nodes ← taxids.mapM (node_for_taxid db)
  let n ← common_node db fuel nodes
  pure n.tax_id

/-- SQL `taxids_for_name` (taxonomy_sql.py 172-183): STRIP the name, build
the three-variant set, select ALL name rows matching ANY variant in one
query, deduplicate (`list(set(...))`) and sort ascending.  There is no
first-variant-wins probing in this backend. -/
def taxids_for_name (db : SqlDB) (name : String) : List Int :=
  let name := pyStrip name
  if name.length ≠ 0 then
    let names := name_variations name
    let ids := ((db.names.filter (fun r => names.contains r.name)).map
      (fun r => r.tax_id)).dedup
    sortLe (fun a b => decide (a ≤ b)) ids
  else
    []

/-- SQL `children_taxids` (taxonomy_sql.py 209-215): the tax_ids of the node
rows whose parent_tax_id is the resolved taxid (a Python set, modelled as a
list).  In the NCBI dump the root node is its own parent, so the root is a
member of its own children set. -/
def children_taxids (db : SqlDB) (taxid : Int) : Except PyErr (List Int) := do
  let u ← updated_taxid db taxid
  let nd ← node_for_taxid db u
  pure ((db.nodes.filter (fun m => m.parent_tax_id = nd.tax_id)).map (fun m => m.tax_id))

/-- Base-class `all_descending_taxids` as inherited by the SQL backend
(taxonomy_base.py 269-277): start from the direct children set and union in
each child's recursive descendant set.  The union is modelled as
append-only-new; the recursion is unbounded in the source and fuel
exhaustion models Python's RecursionError.  No depth guard and no visited
set exist in the source. -/
def all_descending_taxids (db : SqlDB) : Nat → Int → Except PyErr (List Int)
  | 0, _ => Except.error PyErr.recursionLimit
  | fuel + 1, taxid => do
    taxid_valid_raise db taxid
    let cs ← children_taxids db taxid
    cs.foldlM (fun acc c => do
        let rh ← all_descending_taxids db fuel c
        pure (acc ++ rh.filter (fun x => decide (x ∉ acc)))) cs

/-- The hard-coded `TAXIDS_WITH_PLASTIDS` set literal (taxonomy_base.py
35-56) in source order.  Python iterates it as a set, whose order is
unspecified; the boolean result of `contains_plastid` does not depend on the
order provided every per-clade LCA computation succeeds. -/
def taxids_with_plastids : List Int :=
  [2763, 3027, 5752, 33090, 33682, 38254, 136087, 554296, 554915, 556282,
   1401294, 2489521, 2598132, 2608109, 2608240, 2611341, 2611352, 2683617,
   2686027, 2698737]

/-- The loop body of base-class `contains_plastid` (taxonomy_base.py
396-399). -/
def containsPlastidLoop (db : SqlDB) (fuel : Nat) (t : Int) :
    List Int → Except PyErr Bool
  | [] => pure false
  | w :: ws => do
    let sh ← common_taxid db fuel [w, t]
    if sh = w then pure true else containsPlastidLoop db fuel t ws

/-- Base-class `contains_plastid` as inherited by the SQL backend
(taxonomy_base.py 392-400). -/
def contains_plastid (db : SqlDB) (fuel : Nat) (taxid : Int) : Except PyErr Bool := do
  taxid_valid_raise db taxid
  containsPlastidLoop db fuel taxid taxids_with_plastids

/-- Base-class `plastid_genetic_code_for_taxid` as inherited by the SQL
backend (taxonomy_base.py 412-426).  The Balanophoraceae test is
`str(cls.common_taxid([taxid_bala, taxid])) == taxid_bala`, which compares
the STRING form of the LCA with the INT `taxid_bala` returned by this
backend's `updated_taxid`; Python cross-type equality makes the comparison
`False` unconditionally, so the `32` branch is dead here (its RAM twin
compares two strings and is live). -/
def plastid_genetic_code_for_taxid (db : SqlDB) (fuel : Nat) (taxid : Int) :
    Except PyErr Int := do
  taxid_valid_raise db taxid
  let cp ← contains_plastid db fuel taxid
  if cp = false then pure 0
  else do
    let bala ← updated_taxid db 25673
    let sh ← common_taxid db fuel [bala, taxid]
    if pyEq (.str (toString sh)) (.int bala) then pure 32 else pure 11

/-- Base-class `trans_table_for_genetic_code_id` as inherited by the SQL
backend (taxonomy_base.py 349-379): unlike the RAM twin, the start and stop
codon lists are SORTED (`list.sort()`, code-point lexicographic) before the
return value is assembled.  Also unlike the RAM twin the genetic-code id is
NOT `str()`-normalised before indexing the string-keyed dicts. -/
def trans_table_for_genetic_code_id (g : GcState) (gcid : PyVal) :
    Except PyErr TransTable := do
  let codons := g.codons
  let tt ← strKeyDictGet g.gen_code_id_translation_table_dict gcid
  let sc ← strKeyDictGet g.gen_code_id_start_codons_dict gcid
  let idx_start := ((sc.data.enum.filter (fun p => p.2 = 'M')).map (fun p => p.1))
  let start_codons0 ← idx_start.mapM (listIndex codons)
  let start_codons := sortLe pyStrLe start_codons0
  let idx_stop := ((sc.data.enum.filter (fun p => p.2 = '*')).map (fun p => p.1))
  let stop_codons0 ← idx_stop.mapM (listIndex codons)
  let stop_codons := sortLe pyStrLe stop_codons0
  let idx_aa := ((tt.data.enum.filter (fun p => p.2 ≠ '*')).map (fun p => p.1))
  let aa_codons ← idx_aa.mapM (listIndex codons)
  let aas := idx_aa.filterMap (fun i => (tt.data[i]?.map (fun c => String.mk [c])))
  let coding_tbl := aa_codons.zip aas
  let stop_tbl := stop_codons.map (fun c => (c, "*"))
  let tbl := dictOfPairs (coding_tbl ++ stop_tbl)
  pure { trans_table := tbl, start_codons := start_codons, stop_codons := stop_codons }

/-- The base-class `_check_initialized` decorator (taxonomy_base.py 75-82),
identical in behaviour to the RAM one: when the class is not initialized it
PRINTS a message and returns `None` (modelled as `Except.ok none`) without
raising or calling the wrapped method. -/
def check_initialized {α : Type} (db : SqlDB) (f : SqlDB → Except PyErr α) :
    Except PyErr (Option α) :=
  if db.taxonomy_initialized = false then Except.ok none
  else (f db).map some

end TaxonomySQL

/-- Node-row constructor for the concrete example states. -/
def mkNode (t p : Int) : SqlNode :=
  { tax_id := t, parent_tax_id := p, rank := "clade", genetic_code_id := 1,
    mitochondrial_genetic_code_id := none }

/-- Concrete SQL state for the plastid rule: the root, the twenty
plastid-bearing clade taxids as children of the root, and Balanophoraceae
(25673) inside the Viridiplantae clade (33090). -/
def plastidSqlDB : SqlDB :=
  { taxonomy_initialized := true
    nodes := [mkNode 1 1] ++ TaxonomySQL.taxids_with_plastids.map (fun w => mkNode w 1)
      ++ [mkNode 25673 33090]
    names := []
    merged := []
    deleted := [] }

/-- The same state loaded into the RAM backend (string-keyed tables, with
25673 under 33090). -/
def plastidRamDB : RamDB :=
  { taxonomy_initialized := true
    taxids_child_parent_dict :=
      [("1", "1")] ++ TaxonomyRAM.taxids_with_plastids.map (fun w => (toString w, "1"))
        ++ [("25673", "33090")]
    taxids_merged_dict := []
    taxids_deleted_set := []
    names_taxids_dict := [] }

/-- Concrete SQL state for identifier resolution: 1 and 3 active, 4 merged
into 3, 5 deleted, 9 unknown. -/
def resolveSqlDB : SqlDB :=
  { taxonomy_initialized := true
    nodes := [mkNode 1 1, mkNode 3 1]
    names := []
    merged := [(4, 3)]
    deleted := [5] }

/-- RAM state loaded from the same dump rows as `resolveSqlDB`. -/
def resolveRamDB : RamDB :=
  { taxonomy_initialized := true
    taxids_child_parent_dict := [("1", "1"), ("3", "1")]
    taxids_merged_dict := [("4", "3")]
    taxids_deleted_set := ["5"]
    names_taxids_dict := [] }

/-- RAM state whose name table holds exactly the rows `"x" -> 10` and
`"X" -> 20`. -/
def ramNameDB : RamDB :=
  { taxonomy_initialized := true
    taxids_child_parent_dict := [("1", "1"), ("10", "1"), ("20", "1")]
    taxids_merged_dict := []
    taxids_deleted_set := []
    names_taxids_dict :=
      [("x", [{ tax_id := "10", unique_name := "", name_class := "scientific name" }]),
       ("X", [{ tax_id := "20", unique_name := "", name_class := "scientific name" }])] }

/-- SQL state loaded from the same dump rows as `ramNameDB`: name rows
`(10, "x")` and `(20, "X")`. -/
def sqlNameDB : SqlDB :=
  { taxonomy_initialized := true
    nodes := [mkNode 1 1, mkNode 10 1, mkNode 20 1]
    names := [{ tax_id := 10, name := "x", name_class := "scientific name" },
              { tax_id := 20, name := "X", name_class := "scientific name" }]
    merged := []
    deleted := [] }

/-- RAM state with the initialization flag down. -/
def uninitRamDB : RamDB :=
  { taxonomy_initialized := false
    taxids_child_parent_dict := [("1", "1")]
    taxids_merged_dict := []
    taxids_deleted_set := []
    names_taxids_dict := [] }

/-- SQL state with the initialization flag down. -/
def uninitSqlDB : SqlDB :=
  { taxonomy_initialized := false
    nodes := [mkNode 1 1]
    names := []
    merged := []
    deleted := [] }

/-- RAM state whose parent table carries the two-cycle 2 <-> 3 next to a
well-formed root. -/
def cyclicRamDB : RamDB :=
  { taxonomy_initialized := true
    taxids_child_parent_dict := [("1", "1"), ("2", "3"), ("3", "2")]
    taxids_merged_dict := []
    taxids_deleted_set := []
    names_taxids_dict := [] }

/-- SQL state holding only the root node, which is its own parent exactly as
in the NCBI dump; the root is therefore a member of its own children set. -/
def rootOnlySqlDB : SqlDB :=
  { taxonomy_initialized := true
    nodes := [mkNode 1 1]
    names := []
    merged := []
    deleted := [] }

/-- Proposition: the RAM lineage recursion on `db` starting from `t` fails
with Python's recursion-limit error for EVERY recursion budget and every
accumulator, i.e. the source's unbounded recursion never completes. -/
def ramLineageWalkDiverges (db : RamDB) (t : String) : Prop :=
  ∀ (fuel : Nat) (acc : List String),
    TaxonomyRAM.recurse_lineage db fuel t acc = Except.error PyErr.recursionLimit

/-- Proposition: the descendant walk on `db` starting from `t` fails with
Python's recursion-limit error for EVERY recursion budget. -/
def sqlDescendantsWalkDiverges (db : SqlDB) (t : Int) : Prop :=
  ∀ fuel : Nat,
    TaxonomySQL.all_descending_taxids db fuel t = Except.error PyErr.recursionLimit

/-- The taxid `t` reaches the root string `"1"` in exactly `n` successful
`parent_taxid` steps on the RAM state `db`. -/
inductive ReachesRoot (db : RamDB) : String → Nat → Prop where
  | root : ReachesRoot db "1" 0
  | step {t p : String} {n : Nat} (hne : t ≠ "1")
      (hp : TaxonomyRAM.parent_taxid db (.str t) = Except.ok (some p))
      (h : ReachesRoot db p n) : ReachesRoot db t (n + 1)

/-- The fixed 64-codon list in NCBI table order (TCAG base order), exactly
what `codons_from_gc_prt_file` produces from the Base1/Base2/Base3 lines of
the NCBI `gc.prt` reference file. -/
def codons64 : List String :=
  ['T', 'C', 'A', 'G'].flatMap (fun a =>
    ['T', 'C', 'A', 'G'].flatMap (fun b =>
      ['T', 'C', 'A', 'G'].map (fun c => String.mk [a, b, c])))

/-- The standard genetic code (id 1) rows of `gencode.dmp`: the 64-character
translation table and start/stop column. -/
def gcState1 : GcState :=
  { codons := codons64
    gen_code_id_translation_table_dict :=
      [("1", "FFLLSSSSYY**CC*WLLLLPPPPHHQQRRRRIIIMTTTTNNKKSSRRVVVVAAAADDEEGGGG")]
    gen_code_id_start_codons_dict :=
      [("1", "---M------**--*----M---------------M----------------------------")] }

/-- A two-codon genetic-code state used to instantiate the sortedness
theorem on a small concrete input. -/
def gcStateTiny : GcState :=
  { codons := ["TTG", "ATG"]
    gen_code_id_translation_table_dict := [("9", "MM")]
    gen_code_id_start_codons_dict := [("9", "MM")] }

/-- Bind of a successful `Except` computation steps into the continuation. -/
theorem exceptBind_ok {ε α β : Type} (a : α) (k : α → Except ε β) :
    (Except.ok a >>= k) = k a := rfl

/-- Bind of a failed `Except` computation propagates the error. -/
theorem exceptBind_error {ε α β : Type} (e : ε) (k : α → Except ε β) :
    ((Except.error e : Except ε α) >>= k) = Except.error e := rfl

/-- Inversion of a successful `Except` bind. -/
theorem exceptBind_eq_ok {ε α β : Type} {e : Except ε α} {k : α → Except ε β} {b : β} :
    (e >>= k) = Except.ok b ↔ ∃ a, e = Except.ok a ∧ k a = Except.ok b := by
  cases e with
  | ok a => simp [exceptBind_ok]
  | error err => simp [exceptBind_error]

/-- The last element of a list is a member of it. -/
theorem getLast?_mem {α : Type} : ∀ {l : List α} {a : α}, l.getLast? = some a → a ∈ l
  | [], a, h => by simp at h
  | [x], a, h => by
    simp [List.getLast?] at h
    simp [h]
  | x :: y :: ys, a, h => by
    rw [List.getLast?_cons_cons] at h
    exact List.mem_cons_of_mem x (getLast?_mem h)

/-- Membership through `insertLe`. -/
theorem mem_insertLe {α : Type} {le : α → α → Bool} {a x : α} {l : List α} :
    x ∈ insertLe le a l ↔ x = a ∨ x ∈ l := by
  induction l with
  | nil => simp [insertLe]
  | cons b bs ih =>
    by_cases h : le a b = true
    · simp [insertLe, h]
    · simp only [insertLe, if_neg h, List.mem_cons, ih]
      tauto

/-- Inserting into a `le`-ordered list keeps it ordered, for a transitive and
total comparison. -/
theorem pairwise_insertLe {α : Type} {le : α → α → Bool}
    (htr : ∀ a b c, le a b = true → le b c = true → le a c = true)
    (hto : ∀ a b, le a b = true ∨ le b a = true)
    {a : α} {l : List α} (h : l.Pairwise (fun x y => le x y = true)) :
    (insertLe le a l).Pairwise (fun x y => le x y = true) := by
  induction l with
  | nil => simp [insertLe]
  | cons b bs ih =>
    rcases List.pairwise_cons.mp h with ⟨hb, hbs⟩
    by_cases hab : le a b = true
    · rw [insertLe, if_pos hab]
      refine List.pairwise_cons.mpr ⟨?_, h⟩
      intro x hx
      rcases List.mem_cons.mp hx with h1 | h1
      · subst h1; exact hab
      · exact htr a b x hab (hb x h1)
    · rw [insertLe, if_neg hab]
      refine List.pairwise_cons.mpr ⟨?_, ih hbs⟩
      intro x hx
      rcases mem_insertLe.mp hx with h1 | h1
      · subst h1
        rcases hto x b with h2 | h2
        · exact absurd h2 hab
        · exact h2
      · exact hb x h1

/-- The model of Python `list.sort()` produces an ordered list, for a
transitive and total comparison. -/
theorem pairwise_sortLe {α : Type} {le : α → α → Bool}
    (htr : ∀ a b c, le a b = true → le b c = true → le a c = true)
    (hto : ∀ a b, le a b = true ∨ le b a = true)
    (l : List α) :
    (sortLe le l).Pairwise (fun x y => le x y = true) := by
  induction l with
  | nil => simp [sortLe]
  | cons a as ih => exact pairwise_insertLe htr hto ih

/-- Sorting preserves membership. -/
theorem mem_sortLe {α : Type} {le : α → α → Bool} {x : α} {l : List α} :
    x ∈ sortLe le l ↔ x ∈ l := by
  induction l with
  | nil => simp [sortLe]
  | cons a as ih => simp [sortLe, mem_insertLe, ih]

/-- Totality of the code-point lexicographic order. -/
theorem lexLe_total : ∀ s t : List Char, lexLe s t = true ∨ lexLe t s = true
  | [], _ => Or.inl rfl
  | _ :: _, [] => Or.inr rfl
  | a :: as, b :: bs => by
    by_cases h1 : a < b
    · left; simp [lexLe, h1]
    · by_cases h2 : b < a
      · right; simp [lexLe, h2]
      · rcases lexLe_total as bs with h | h
        · left; simp [lexLe, h1, h2, h]
        · right; simp [lexLe, h1, h2, h]

/-- Transitivity of the code-point lexicographic order. -/
theorem lexLe_trans : ∀ s t u : List Char,
    lexLe s t = true → lexLe t u = true → lexLe s u = true
  | [], _, _, _, _ => rfl
  | _ :: _, [], _, h, _ => by simp [lexLe] at h
  | _ :: _, _ :: _, [], _, h => by simp [lexLe] at h
  | a :: as, b :: bs, c :: cs, h1, h2 => by
    by_cases hab : a < b
    · by_cases hbc : b < c
      · simp [lexLe, lt_trans hab hbc]
      · by_cases hcb : c < b
        · simp [lexLe, hbc, hcb] at h2
        · have hbceq : b = c := le_antisymm (not_lt.mp hcb) (not_lt.mp hbc)
          subst hbceq
          simp [lexLe, hab]
    · by_cases hba : b < a
      · simp [lexLe, hab, hba] at h1
      · have habeq : a = b := le_antisymm (not_lt.mp hba) (not_lt.mp hab)
        subst habeq
        simp only [lexLe, lt_irrefl, if_false] at h1
        by_cases hac : a < c
        · simp [lexLe, hac]
        · by_cases hca : c < a
          · simp [lexLe, hac, hca] at h2
          · have haceq : a = c := le_antisymm (not_lt.mp hca) (not_lt.mp hac)
            subst haceq
            simp only [lexLe, lt_irrefl, if_false] at h2 ⊢
            exact lexLe_trans as bs cs h1 h2

/-- Totality of the Python string order. -/
theorem pyStrLe_total : ∀ a b : String, pyStrLe a b = true ∨ pyStrLe b a = true :=
  fun a b => lexLe_total a.data b.data

/-- Transitivity of the Python string order. -/
theorem pyStrLe_trans : ∀ a b c : String,
    pyStrLe a b = true → pyStrLe b c = true → pyStrLe a c = true :=
  fun a b c => lexLe_trans a.data b.data c.data

/-- The integer comparison used by the SQL name lookup is transitive. -/
theorem intLe_trans : ∀ a b c : Int,
    decide (a ≤ b) = true → decide (b ≤ c) = true → decide (a ≤ c) = true := by
  intro a b c h1 h2
  simp only [decide_eq_true_eq] at h1 h2 ⊢
  exact le_trans h1 h2

/-- The integer comparison used by the SQL name lookup is total. -/
theorem intLe_total : ∀ a b : Int, decide (a ≤ b) = true ∨ decide (b ≤ a) = true := by
  intro a b
  simp only [decide_eq_true_eq]
  exact le_total a b

/-- Padding against an empty right list. -/
theorem zipLongest_nil_right : ∀ (l : List Int) (f : Int),
    zipLongest l [] f = l.map (fun a => (a, f))
  | [], _ => rfl
  | a :: as, f => by
    simp only [zipLongest, List.map_cons]
    exact congrArg _ (zipLongest_nil_right as f)

/-- Swapping the argument lists of `zip_longest` swaps every pair. -/
theorem zipLongest_swap : ∀ (l1 l2 : List Int) (f : Int),
    zipLongest l2 l1 f = (zipLongest l1 l2 f).map Prod.swap
  | [], l2, f => by
    rw [zipLongest_nil_right l2 f]
    show _ = (l2.map fun b => (f, b)).map Prod.swap
    simp [Function.comp, Prod.swap]
  | a :: as, [], f => by
    show (a :: as).map (fun b => (f, b)) = ((a, f) :: zipLongest as [] f).map Prod.swap
    rw [zipLongest_nil_right as f]
    simp [Function.comp, Prod.swap]
  | a :: as, b :: bs, f => by
    show (b, a) :: zipLongest bs as f = ((a, b) :: zipLongest as bs f).map Prod.swap
    rw [List.map_cons, zipLongest_swap as bs f]
    rfl

/-- The component-equality test is invariant under swapping a pair. -/
theorem predSwap :
    ((fun q : Int × Int => decide (q.1 = q.2)) ∘ Prod.swap)
      = (fun q : Int × Int => decide (q.1 = q.2)) := by
  funext q
  simp [Prod.swap, eq_comm]

/-- Swapping both inputs of the path-assembly step reverses its output,
provided every shared pair has equal components (which `takeWhile` of the
component-equality test guarantees). -/
theorem pathAssemble_swap {shared diff : List (Int × Int)} {p : List Int}
    (hsh : ∀ q ∈ shared, q.1 = q.2)
    (h : pathAssemble shared diff = some p) :
    pathAssemble (shared.map Prod.swap) (diff.map Prod.swap) = some p.reverse := by
  cases hd : diff with
  | nil => rw [hd] at h; simp [pathAssemble] at h
  | cons d ds =>
    rw [hd] at h
    cases hs : shared.getLast? with
    | none => rw [pathAssemble.eq_def] at h; rw [hs] at h; simp at h
    | some s =>
      have hs1 : s.1 = s.2 := hsh s (getLast?_mem hs)
      rw [pathAssemble.eq_def] at h
      rw [hs] at h
      simp only [Option.some_inj] at h
      have hlast : (shared.map Prod.swap).getLast? = some s.swap := by
        rw [List.getLast?_map, hs]
        rfl
      rw [pathAssemble.eq_def]
      simp only [List.map_cons, hlast]
      subst h
      rw [Option.some_inj, ← List.filter_reverse]
      congr 1
      have hc1 : (Prod.fst ∘ Prod.swap : Int × Int → Int) = Prod.snd := by
        funext q
        rfl
      have hc2 : (Prod.snd ∘ Prod.swap : Int × Int → Int) = Prod.fst := by
        funext q
        rfl
      simp [List.map_map, List.reverse_append, hc1, hc2, Prod.fst_swap,
        Prod.snd_swap, ← hs1]

/-- Core symmetry of `path_between_lineages`: whenever the computation
succeeds in one argument order it succeeds in the other, producing the
reversed path. -/
theorem pathBetweenLineages_symm {l1 l2 : List Int} {p : List Int}
    (h : pathBetweenLineages l1 l2 = some p) :
    pathBetweenLineages l2 l1 = some p.reverse := by
  unfold pathBetweenLineages at h ⊢
  have hzip : (l2.zip l1).takeWhile (fun q : Int × Int => decide (q.1 = q.2))
      = ((l1.zip l2).takeWhile (fun q : Int × Int => decide (q.1 = q.2))).map Prod.swap := by
    rw [← List.zip_swap l1 l2, List.takeWhile_map, predSwap]
  have hdrop : (zipLongest l2 l1 (-1)).dropWhile (fun q : Int × Int => decide (q.1 = q.2))
      = ((zipLongest l1 l2 (-1)).dropWhile
          (fun q : Int × Int => decide (q.1 = q.2))).map Prod.swap := by
    rw [zipLongest_swap l1 l2 (-1), List.dropWhile_map, predSwap]
  rw [hzip, hdrop]
  refine pathAssemble_swap ?_ h
  intro q hq
  have := List.mem_takeWhile_imp hq
  simpa using this

/-- The RAM validity check passes for any taxid present in the child-parent
dict. -/
theorem ram_taxid_valid_raise_ok {db : RamDB} {t : String}
    (hact : (db.taxids_child_parent_dict.lookup t).isSome = true) :
    TaxonomyRAM.taxid_valid_raise db (.str t) = Except.ok () := by
  simp [TaxonomyRAM.taxid_valid_raise, TaxonomyRAM.taxid_valid, pyStr, hact]

/-- RAM `updated_taxid` is the identity on an active, non-merged,
non-deleted taxid. -/
theorem ram_updated_taxid_active {db : RamDB} {t : String}
    (hact : (db.taxids_child_parent_dict.lookup t).isSome = true)
    (hmer : db.taxids_merged_dict.lookup t = none)
    (hdel : db.taxids_deleted_set.contains t = false) :
    TaxonomyRAM.updated_taxid db (.str t) = Except.ok (some t) := by
  have hin : TaxonomyRAM.taxid_in_db_raise db (.str t) = Except.ok () := by
    simp [TaxonomyRAM.taxid_in_db_raise, TaxonomyRAM.taxid_in_db, pyStr, hact]
  have hdel2 : t ∉ db.taxids_deleted_set := by simpa using hdel
  have hd : TaxonomyRAM.taxid_deleted db (.str t) = Except.ok false := by
    simp only [TaxonomyRAM.taxid_deleted, pyStr]
    rw [hin]
    simp [exceptBind_ok, hdel2]
  have hm : TaxonomyRAM.taxid_merged db (.str t) = Except.ok none := by
    simp only [TaxonomyRAM.taxid_merged, pyStr]
    rw [ram_taxid_valid_raise_ok hact]
    simp [exceptBind_ok, hmer]
  simp only [TaxonomyRAM.updated_taxid, pyStr]
  rw [ram_taxid_valid_raise_ok hact]
  rw [exceptBind_ok]
  rw [hd, exceptBind_ok, hm, exceptBind_ok]
  rfl

/-- Structure of a successful lineage recursion: starting from a taxid that
reaches the root in `n` parent steps, the walk appends the taxid-to-root
chain to the accumulator. -/
theorem recurse_lineage_of_reachesRoot {db : RamDB} {t : String} {n : Nat}
    (h : ReachesRoot db t n) :
    ∀ acc : List String, ∃ w : List String,
      TaxonomyRAM.recurse_lineage db (n + 1) t acc = Except.ok (acc ++ w)
      ∧ w.head? = some t ∧ w.getLast? = some "1" ∧ w ≠ []
      ∧ (t = "1" → w = ["1"]) := by
  induction h with
  | root =>
    intro acc
    exact ⟨["1"], rfl, rfl, rfl, by simp, fun _ => rfl⟩
  | step hne hp h ih =>
    intro acc
    rename_i t p m
    obtain ⟨w, heq, hh, hl, hw, _⟩ := ih (acc ++ [t])
    refine ⟨t :: w, ?_, rfl, ?_, by simp, fun hc => absurd hc hne⟩
    · have hstep : TaxonomyRAM.recurse_lineage db (m + 1 + 1) t acc
          = TaxonomyRAM.recurse_lineage db (m + 1) p (acc ++ [t]) := by
        simp only [TaxonomyRAM.recurse_lineage, if_neg hne]
        rw [hp]
        rfl
      rw [hstep, heq]
      simp
    · obtain ⟨x, xs, rfl⟩ := List.exists_cons_of_ne_nil hw
      simpa using hl

/-- On the cyclic parent table the lineage recursion from either cycle
member exhausts every recursion budget. -/
theorem cyclicRamDB_lineage_diverges : ∀ (fuel : Nat) (acc : List String),
    TaxonomyRAM.recurse_lineage cyclicRamDB fuel "2" acc = Except.error PyErr.recursionLimit
    ∧ TaxonomyRAM.recurse_lineage cyclicRamDB fuel "3" acc
        = Except.error PyErr.recursionLimit := by
  intro fuel
  induction fuel with
  | zero => exact fun acc => ⟨rfl, rfl⟩
  | succ n ih =>
    intro acc
    constructor
    · have h : TaxonomyRAM.recurse_lineage cyclicRamDB (n + 1) "2" acc
          = TaxonomyRAM.recurse_lineage cyclicRamDB n "3" (acc ++ ["2"]) := rfl
      rw [h]
      exact (ih (acc ++ ["2"])).2
    · have h : TaxonomyRAM.recurse_lineage cyclicRamDB (n + 1) "3" acc
          = TaxonomyRAM.recurse_lineage cyclicRamDB n "2" (acc ++ ["3"]) := rfl
      rw [h]
      exact (ih (acc ++ ["3"])).1

/-- On the root-only table (root its own parent, as in the real NCBI dump)
the descendant walk from the root exhausts every recursion budget. -/
theorem rootOnlySqlDB_descendants_diverge : ∀ n : Nat,
    TaxonomySQL.all_descending_taxids rootOnlySqlDB n 1
      = Except.error PyErr.recursionLimit := by
  intro n
  induction n with
  | zero => rfl
  | succ n ih =>
    have h : TaxonomySQL.all_descending_taxids rootOnlySqlDB (n + 1) 1
        = ((TaxonomySQL.all_descending_taxids rootOnlySqlDB n 1).bind
            (fun rh => Except.ok (([1] : List Int)
              ++ rh.filter (fun x => decide (x ∉ ([1] : List Int)))))).bind
            (fun s => (Except.ok s : Except PyErr (List Int))) := rfl
    rw [h, ih]
    rfl

/-- C1: the claim says plastid resolution returns 0 outside the plastid
clades, 32 inside Balanophoraceae (25673), and 11 elsewhere.  The base-class
code inherited by the SQL backend compares `str(common_taxid(...)) ==
taxid_bala`, a string against an int, which is always `False` in Python, so
it returns 11 even for 25673 itself; the RAM twin compares two strings and
does return the (string) code "32".  This theorem evaluates both backends on
the same loaded tree at the failing input 25673 and records that the
cross-type comparison driving the 32 branch is identically false. -/
theorem c1_plastid_balanophoraceae_code_bug :
    TaxonomySQL.plastid_genetic_code_for_taxid plastidSqlDB 6 25673 = Except.ok 11
    ∧ TaxonomyRAM.plastid_genetic_code_for_taxid plastidRamDB 6 (.int 25673)
        = Except.ok "32"
    ∧ pyEq (.str (toString (25673 : Int))) (.int 25673) = false :=
  ⟨rfl, rfl, rfl⟩

/-- C2 counterexample: the claim says resolution fails with
`UnresolvableIdError` on a deleted taxid and `UnknownIdError` on an unknown
one, but SQL `updated_taxid` returns normally with the sentinel ints -1 and
-2 (no such error classes exist anywhere in the repository). -/
theorem c2_resolution_sentinels_not_errors :
    TaxonomySQL.updated_taxid resolveSqlDB 5 = Except.ok (-1)
    ∧ TaxonomySQL.updated_taxid resolveSqlDB 9 = Except.ok (-2) :=
  ⟨rfl, rfl⟩

/-- C2 (amended): SQL `updated_taxid` returns the taxid itself when Active,
the unique merged target when Merged (which is Active whenever the merged
table's targets are active, as the NCBI dump guarantees), the sentinel -1
when Deleted and -2 when unknown. -/
theorem c2_updated_taxid_classification (db : SqlDB) (t : Int) :
    (TaxonomySQL.taxid_active db t = true → TaxonomySQL.updated_taxid db t = Except.ok t)
    ∧ (∀ n : Int, TaxonomySQL.taxid_active db t = false →
        (db.merged.filter (fun p => p.1 = t)).map (fun p => p.2) = [n] →
        TaxonomySQL.updated_taxid db t = Except.ok n
        ∧ ((∀ p ∈ db.merged, TaxonomySQL.taxid_active db p.2 = true) →
            TaxonomySQL.taxid_active db n = true))
    ∧ (TaxonomySQL.taxid_active db t = false → TaxonomySQL.taxid_merged db t = false →
        TaxonomySQL.taxid_deleted db t = true →
        TaxonomySQL.updated_taxid db t = Except.ok (-1))
    ∧ (TaxonomySQL.taxid_active db t = false → TaxonomySQL.taxid_merged db t = false →
        TaxonomySQL.taxid_deleted db t = false →
        TaxonomySQL.updated_taxid db t = Except.ok (-2)) := by
  refine ⟨?_, ?_, ?_, ?_⟩
  · intro h
    simp [TaxonomySQL.updated_taxid, h]
  · intro n hact hfil
    have hmer : TaxonomySQL.taxid_merged db t = true := by
      rw [TaxonomySQL.taxid_merged, List.any_eq_true]
      have hn : n ∈ (db.merged.filter (fun p => p.1 = t)).map (fun p => p.2) := by
        rw [hfil]
        simp
      obtain ⟨q, hq, _⟩ := List.mem_map.mp hn
      refine ⟨q, List.mem_of_mem_filter hq, ?_⟩
      have := List.of_mem_filter hq
      simpa using this
    constructor
    · simp [TaxonomySQL.updated_taxid, hact, hmer, hfil]
    · intro hinv
      have hn : n ∈ (db.merged.filter (fun p => p.1 = t)).map (fun p => p.2) := by
        rw [hfil]
        simp
      obtain ⟨q, hq, hqe⟩ := List.mem_map.mp hn
      rw [← hqe]
      exact hinv q (List.mem_of_mem_filter hq)
  · intro h1 h2 h3
    simp [TaxonomySQL.updated_taxid, h1, h2, h3]
  · intro h1 h2 h3
    simp [TaxonomySQL.updated_taxid, h1, h2, h3]

/-- C2 witness: the classification theorem instantiated on the concrete
resolution state (3 active, 4 merged into 3, 5 deleted, 9 unknown). -/
theorem c2_updated_taxid_classification_witness :
    TaxonomySQL.updated_taxid resolveSqlDB 3 = Except.ok 3
    ∧ TaxonomySQL.updated_taxid resolveSqlDB 4 = Except.ok 3
    ∧ TaxonomySQL.taxid_active resolveSqlDB 3 = true
    ∧ TaxonomySQL.updated_taxid resolveSqlDB 5 = Except.ok (-1)
    ∧ TaxonomySQL.updated_taxid resolveSqlDB 9 = Except.ok (-2) := by
  refine ⟨?_, ?_, ?_, ?_, ?_⟩
  · exact (c2_updated_taxid_classification resolveSqlDB 3).1 (by rfl)
  · exact ((c2_updated_taxid_classification resolveSqlDB 4).2.1 3 (by rfl) (by rfl)).1
  · exact ((c2_updated_taxid_classification resolveSqlDB 4).2.1 3 (by rfl) (by rfl)).2
      (by decide)
  · exact (c2_updated_taxid_classification resolveSqlDB 5).2.2.1 (by rfl) (by rfl) (by rfl)
  · exact (c2_updated_taxid_classification resolveSqlDB 9).2.2.2 (by rfl) (by rfl) (by rfl)

/-- C3 counterexample: on states loaded from the same name rows
(`"x" -> 10`, `"X" -> 20`), a lookup of `"x"` returns only the literal
variant's record in the RAM backend but the sorted union of all case
variants in the SQL backend — the two backends are observably different on
the same public operation and input. -/
theorem c3_name_lookup_backends_differ :
    (TaxonomyRAM.taxids_for_name ramNameDB "x").tax_ids.map
        (fun l => l.map (fun r => r.tax_id)) = some ["10"]
    ∧ TaxonomySQL.taxids_for_name sqlNameDB "x" = [10, 20]
    ∧ ([10, 20].map (fun i : Int => toString i) ≠ ["10"]) :=
  ⟨rfl, rfl, by decide⟩

/-- C3 (amended): the backends also differ in error behaviour on the same
dump rows: for a deleted-only taxid the RAM backend raises a plain
`Exception` from its validity check while the SQL backend returns the
sentinel -1. -/
theorem c3_error_behavior_backends_differ :
    TaxonomyRAM.updated_taxid resolveRamDB (.int 5)
        = Except.error (.exc "TaxID: 5 is not valid.")
    ∧ TaxonomySQL.updated_taxid resolveSqlDB 5 = Except.ok (-1) :=
  ⟨rfl, rfl⟩

/-- C4 counterexample: the claim says name lookup probes the three case
variants in order and returns the FIRST variant's matches; on a state where
the literal variant `"x"` matches exactly taxid 10, the SQL backend
nevertheless returns the union `[10, 20]` of all variants. -/
theorem c4_sql_lookup_unions_variants :
    TaxonomySQL.taxids_for_name sqlNameDB "x" = [10, 20]
    ∧ (sqlNameDB.names.filter (fun r => r.name = "x")).map (fun r => r.tax_id) = [10]
    ∧ ([10, 20] ≠ ([10] : List Int)) :=
  ⟨rfl, rfl, by decide⟩

/-- C4 (amended): the RAM backend implements exactly the three-probe
first-match rule (literal, first-letter-uppercased, first-letter-lowercased)
with no other normalisation, while the SQL backend strips surrounding
whitespace and returns the deduplicated sorted union of every row matching
ANY of the three variants of the stripped name. -/
theorem c4_name_probe_semantics (db : RamDB) (db2 : SqlDB) (name : String)
    (h1 : name.length ≠ 0) (h2 : (pyStrip name).length ≠ 0) :
    (TaxonomyRAM.taxids_for_name db name =
      match db.names_taxids_dict.lookup name with
      | some recs => { name := name, tax_ids := some recs }
      | none =>
        match db.names_taxids_dict.lookup (upperFirst name) with
        | some recs => { name := upperFirst name, tax_ids := some recs }
        | none =>
          match db.names_taxids_dict.lookup (lowerFirst name) with
          | some recs => { name := lowerFirst name, tax_ids := some recs }
          | none => { name := name, tax_ids := none })
    ∧ (∀ i : Int, i ∈ TaxonomySQL.taxids_for_name db2 name ↔
        ∃ r ∈ db2.names, r.tax_id = i ∧ r.name ∈ name_variations (pyStrip name)) := by
  constructor
  · show (if name.length ≠ 0 then
        TaxonomyRAM.nameProbeLoop db { name := name, tax_ids := none }
          [name, upperFirst name, lowerFirst name]
      else { name := name, tax_ids := none }) = _
    rw [if_pos h1]
    rfl
  · intro i
    show i ∈ (if (pyStrip name).length ≠ 0 then
        sortLe (fun a b => decide (a ≤ b))
          (((db2.names.filter (fun r =>
            (name_variations (pyStrip name)).contains r.name)).map
              (fun r => r.tax_id)).dedup)
      else []) ↔ _
    rw [if_pos h2]
    rw [mem_sortLe, List.mem_dedup]
    simp only [List.mem_map, List.mem_filter, List.elem_iff]
    constructor
    · rintro ⟨r, ⟨hrn, hcont⟩, hre⟩
      exact ⟨r, hrn, hre, hcont⟩
    · rintro ⟨r, hrn, hre, hcont⟩
      exact ⟨r, ⟨hrn, hcont⟩, hre⟩

/-- C4 witness: the probe-semantics theorem instantiated on the concrete
name states and the input `"x"`. -/
theorem c4_name_probe_semantics_witness :
    TaxonomyRAM.taxids_for_name ramNameDB "x"
        = { name := "x",
            tax_ids := some [{ tax_id := "10", unique_name := "",
                               name_class := "scientific name" }] }
    ∧ (10 ∈ TaxonomySQL.taxids_for_name sqlNameDB "x" ↔
        ∃ r ∈ sqlNameDB.names, r.tax_id = 10 ∧ r.name ∈ name_variations (pyStrip "x")) := by
  have h := c4_name_probe_semantics ramNameDB sqlNameDB "x" (by decide) (by decide)
  constructor
  · rw [h.1]
    rfl
  · exact h.2 10

/-- C5 counterexample: the claim says a query issued before initialization
raises `UninitializedError`; the decorator instead prints a message and
returns `None`, i.e. the call completes normally with a default value (no
such error class exists in the repository). -/
theorem c5_uninitialized_returns_none_not_error :
    TaxonomyRAM.check_initialized uninitRamDB
        (fun db => TaxonomyRAM.updated_taxid db (.int 1)) = Except.ok none
    ∧ TaxonomySQL.check_initialized uninitSqlDB
        (fun db => TaxonomySQL.updated_taxid db 1) = Except.ok none :=
  ⟨rfl, rfl⟩

/-- C5 (amended): every query guarded by `_check_initialized` in either
backend returns `None` (after printing a message) when the initialization
flag is down: it does not raise, does not block, and never reaches the
wrapped method. -/
theorem c5_uninitialized_guard {α β : Type} (db : RamDB) (db2 : SqlDB)
    (f : RamDB → Except PyErr α) (g : SqlDB → Except PyErr β)
    (h : db.taxonomy_initialized = false) (h2 : db2.taxonomy_initialized = false) :
    TaxonomyRAM.check_initialized db f = Except.ok none
    ∧ TaxonomySQL.check_initialized db2 g = Except.ok none := by
  constructor
  · simp [TaxonomyRAM.check_initialized, h]
  · simp [TaxonomySQL.check_initialized, h2]

/-- C5 witness: the guard theorem instantiated on the concrete uninitialized
states with concrete wrapped queries. -/
theorem c5_uninitialized_guard_witness :
    TaxonomyRAM.check_initialized uninitRamDB
        (fun db => Except.ok (TaxonomyRAM.taxid_in_db db (.int 1))) = Except.ok none
    ∧ TaxonomySQL.check_initialized uninitSqlDB
        (fun db => TaxonomySQL.node_for_taxid db 1) = Except.ok none :=
  c5_uninitialized_guard uninitRamDB uninitSqlDB _ _ rfl rfl

/-- C6 counterexample: the claim says every lineage and descendant walk is
bounded by a depth guard and fails with `MalformedTreeError` when the guard
is exceeded.  The source has no guard and no such error: on a parent table
with the cycle 2 <-> 3 the lineage recursion never completes for ANY
recursion budget, and on the real root-is-its-own-parent table shape the
descendant walk from the root never completes either; what arrives instead
is Python's RecursionError (the fuel-exhaustion error of the embedding). -/
theorem c6_walks_diverge_without_guard :
    ramLineageWalkDiverges cyclicRamDB "2"
    ∧ sqlDescendantsWalkDiverges rootOnlySqlDB 1 := by
  constructor
  · intro fuel acc
    exact (cyclicRamDB_lineage_diverges fuel acc).1
  · exact rootOnlySqlDB_descendants_diverge

/-- C6 (amended): the walks carry no depth guard and never produce a
`MalformedTreeError` (the repository defines none); the lineage recursion
terminates exactly when iterated `parent_taxid` steps reach the root, in
which case a budget one larger than the step count suffices. -/
theorem c6_lineage_walk_terminates_when_root_reached (db : RamDB) (t : String)
    (n : Nat) (h : ReachesRoot db t n) :
    ∀ acc : List String, ∃ l : List String,
      TaxonomyRAM.recurse_lineage db (n + 1) t acc = Except.ok (acc ++ l) := by
  intro acc
  obtain ⟨w, heq, _⟩ := recurse_lineage_of_reachesRoot h acc
  exact ⟨w, heq⟩

/-- C6 witness: termination of the lineage walk on the concrete two-level
tree, starting from the leaf 3. -/
theorem c6_lineage_walk_terminates_witness :
    ∃ l : List String,
      TaxonomyRAM.recurse_lineage resolveRamDB 2 "3" [] = Except.ok ([] ++ l) := by
  have hr : ReachesRoot resolveRamDB "3" 1 :=
    ReachesRoot.step (by decide) (by rfl) ReachesRoot.root
  exact c6_lineage_walk_terminates_when_root_reached resolveRamDB "3" 1 hr []

/-- C7 counterexample: the claim says `trans_table_for_genetic_code_id`
returns start and stop codons sorted lexically.  On the standard genetic
code (id 1, loaded exactly as `gencode.dmp` and `gc.prt` provide it) the RAM
backend returns the start codons in codon-table order `TTG, CTG, ATG`, which
is not lexically sorted; the base-class version run on the same state does
sort them. -/
theorem c7_ram_start_codons_unsorted :
    (TaxonomyRAM.trans_table_for_genetic_code_id gcState1 (.int 1)).map
        (fun r => r.start_codons) = Except.ok ["TTG", "CTG", "ATG"]
    ∧ ¬ List.Pairwise (fun a b => pyStrLe a b = true) ["TTG", "CTG", "ATG"]
    ∧ (TaxonomySQL.trans_table_for_genetic_code_id gcState1 (.str "1")).map
        (fun r => r.start_codons) = Except.ok ["ATG", "CTG", "TTG"] := by
  refine ⟨rfl, ?_, rfl⟩
  intro hp
  have h1 := (List.pairwise_cons.mp hp).1 "CTG" (by simp)
  simp [pyStrLe, lexLe] at h1

/-- C7 (amended): the base-class version shared by the SQL backend does sort
both codon lists (code-point lexicographically, Python `list.sort()`);
whenever it returns a table, the start and stop codon sequences are
ordered. -/
theorem c7_base_trans_table_sorted (g : GcState) (gcid : PyVal) (res : TransTable)
    (h : TaxonomySQL.trans_table_for_genetic_code_id g gcid = Except.ok res) :
    res.start_codons.Pairwise (fun a b => pyStrLe a b = true)
    ∧ res.stop_codons.Pairwise (fun a b => pyStrLe a b = true) := by
  simp only [TaxonomySQL.trans_table_for_genetic_code_id] at h
  rw [exceptBind_eq_ok] at h
  obtain ⟨tt, htt, h⟩ := h
  rw [exceptBind_eq_ok] at h
  obtain ⟨sc, hsc, h⟩ := h
  rw [exceptBind_eq_ok] at h
  obtain ⟨st0, hst0, h⟩ := h
  rw [exceptBind_eq_ok] at h
  obtain ⟨sp0, hsp0, h⟩ := h
  rw [exceptBind_eq_ok] at h
  obtain ⟨aac, haac, h⟩ := h
  have h3 : res = _ := (Except.ok.inj h).symm
  subst h3
  exact ⟨pairwise_sortLe pyStrLe_trans pyStrLe_total _,
    pairwise_sortLe pyStrLe_trans pyStrLe_total _⟩

/-- C7 witness: the sortedness theorem instantiated on a concrete two-codon
genetic-code state whose table-order start codons `TTG, ATG` come back
sorted as `ATG, TTG`. -/
theorem c7_base_trans_table_sorted_witness :
    List.Pairwise (fun a b => pyStrLe a b = true) ["ATG", "TTG"]
    ∧ List.Pairwise (fun a b => pyStrLe a b = true) ([] : List String) :=
  c7_base_trans_table_sorted gcStateTiny (.str "9")
    { trans_table := [("TTG", "M"), ("ATG", "M")],
      start_codons := ["ATG", "TTG"], stop_codons := [] } rfl

/-- C8: for an active, non-merged, non-deleted taxid whose parent chain
reaches the root, the lineage taxid sequence is non-empty, starts at the
root string `"1"`, ends at the taxid itself, and for the root it is exactly
`["1"]`. -/
theorem c8_lineage_endpoints (db : RamDB) (t : String) (n : Nat)
    (hact : (db.taxids_child_parent_dict.lookup t).isSome = true)
    (hmer : db.taxids_merged_dict.lookup t = none)
    (hdel : db.taxids_deleted_set.contains t = false)
    (hreach : ReachesRoot db t n) :
    ∃ l : List String,
      TaxonomyRAM.lineage_taxids db (n + 1) (.str t) = Except.ok l
      ∧ l ≠ [] ∧ l.head? = some "1" ∧ l.getLast? = some t
      ∧ (t = "1" → l = ["1"]) := by
  obtain ⟨w, heq, hh, hl, hw, hroot⟩ := recurse_lineage_of_reachesRoot hreach []
  rw [List.nil_append] at heq
  refine ⟨w.reverse, ?_, by simpa using hw, ?_, ?_, ?_⟩
  · simp only [TaxonomyRAM.lineage_taxids, pyStr]
    rw [ram_taxid_valid_raise_ok hact, exceptBind_ok,
      ram_updated_taxid_active hact hmer hdel, exceptBind_ok]
    show ((TaxonomyRAM.recurse_lineage db (n + 1) t []) >>= fun l =>
      (pure l.reverse : Except PyErr (List String))) = Except.ok w.reverse
    rw [heq, exceptBind_ok]
    rfl
  · rw [List.head?_reverse, hl]
  · rw [List.getLast?_reverse, hh]
  · intro hc
    rw [hroot hc]
    rfl

/-- C8 witness: the endpoint theorem instantiated on the concrete two-level
tree at the leaf 3 and at the root itself. -/
theorem c8_lineage_endpoints_witness :
    (∃ l : List String,
      TaxonomyRAM.lineage_taxids resolveRamDB 2 (.str "3") = Except.ok l
      ∧ l ≠ [] ∧ l.head? = some "1" ∧ l.getLast? = some "3"
      ∧ ("3" = "1" → l = ["1"]))
    ∧ (∃ l : List String,
      TaxonomyRAM.lineage_taxids resolveRamDB 1 (.str "1") = Except.ok l
      ∧ l ≠ [] ∧ l.head? = some "1" ∧ l.getLast? = some "1"
      ∧ ("1" = "1" → l = ["1"])) := by
  constructor
  · exact c8_lineage_endpoints resolveRamDB "3" 1 (by decide) (by rfl) (by decide)
      (ReachesRoot.step (by decide) (by rfl) ReachesRoot.root)
  · exact c8_lineage_endpoints resolveRamDB "1" 0 (by decide) (by rfl) (by decide)
      ReachesRoot.root

/-- C9: whenever `path_between_taxids` succeeds on an ordered pair, it
succeeds on the swapped pair with the reversed node sequence, and on the
diagonal it returns the single-element path of the (int-converted) taxid. -/
theorem c9_path_symmetry_and_diagonal (db : RamDB) (fuel : Nat) (a b : PyVal)
    (p : List Int)
    (h : TaxonomyRAM.path_between_taxids db fuel a b = Except.ok p) :
    TaxonomyRAM.path_between_taxids db fuel b a = Except.ok p.reverse
    ∧ ∃ na, pyInt a = Except.ok na
        ∧ TaxonomyRAM.path_between_taxids db fuel a a = Except.ok [na] := by
  simp only [TaxonomyRAM.path_between_taxids] at h ⊢
  rw [exceptBind_eq_ok] at h
  obtain ⟨u1, hv1, h⟩ := h
  rw [exceptBind_eq_ok] at h
  obtain ⟨u2, hv2, h⟩ := h
  rw [exceptBind_eq_ok] at h
  obtain ⟨na, hna, h⟩ := h
  rw [exceptBind_eq_ok] at h
  obtain ⟨nb, hnb, h⟩ := h
  cases u1
  cases u2
  by_cases hab : na = nb
  · subst hab
    rw [if_pos rfl] at h
    have h2 : Except.ok (ε := PyErr) [na] = Except.ok p := h
    have hp : p = [na] := (Except.ok.inj h2).symm
    subst hp
    refine ⟨?_, na, hna, ?_⟩
    · simp only [hv1, hv2, hna, hnb, exceptBind_ok]
      simp only [if_pos trivial, List.reverse_cons, List.reverse_nil, List.nil_append]
      rfl
    · simp only [hv1, hna, exceptBind_ok]
      simp only [if_pos trivial]
      rfl
  · rw [if_neg hab] at h
    rw [exceptBind_eq_ok] at h
    obtain ⟨l1s, h1, h⟩ := h
    rw [exceptBind_eq_ok] at h
    obtain ⟨l2s, hl2, h⟩ := h
    rw [exceptBind_eq_ok] at h
    obtain ⟨l1, hm1, h⟩ := h
    rw [exceptBind_eq_ok] at h
    obtain ⟨l2, hm2, h⟩ := h
    cases hq : pathBetweenLineages l1 l2 with
    | none => rw [hq] at h; simp at h
    | some q =>
      rw [hq] at h
      have h2 : Except.ok (ε := PyErr) q = Except.ok p := h
      have hqp : q = p := Except.ok.inj h2
      subst hqp
      refine ⟨?_, na, hna, ?_⟩
      · simp only [hv1, hv2, hna, hnb, exceptBind_ok]
        rw [if_neg (Ne.symm hab)]
        simp only [h1, hl2, hm1, hm2, exceptBind_ok]
        rw [pathBetweenLineages_symm hq]
        rfl
      · simp only [hv1, hna, exceptBind_ok]
        simp only [if_pos trivial]
        rfl

/-- C9 witness: the symmetry theorem instantiated on the concrete two-level
tree, where the path from 3 to 1 is `[3, 1]`. -/
theorem c9_path_symmetry_and_diagonal_witness :
    TaxonomyRAM.path_between_taxids resolveRamDB 3 (.int 1) (.int 3)
        = Except.ok [1, 3]
    ∧ ∃ na, pyInt (.int 3) = Except.ok na
        ∧ TaxonomyRAM.path_between_taxids resolveRamDB 3 (.int 3) (.int 3)
            = Except.ok [na] :=
  c9_path_symmetry_and_diagonal resolveRamDB 3 (.int 3) (.int 1) [3, 1] rfl

/-- C10: every embedded RAM taxid operation first normalises its argument
with Python `str()`, so calling it with the int `n` and with the decimal
string of `n` is literally the same computation. -/
theorem c10_int_and_string_taxids_agree (db : RamDB) (n : Int) (fuel : Nat) :
    TaxonomyRAM.taxid_in_db db (.int n) = TaxonomyRAM.taxid_in_db db (.str (toString n))
    ∧ TaxonomyRAM.taxid_valid db (.int n)
        = TaxonomyRAM.taxid_valid db (.str (toString n))
    ∧ TaxonomyRAM.taxid_deleted db (.int n)
        = TaxonomyRAM.taxid_deleted db (.str (toString n))
    ∧ TaxonomyRAM.taxid_merged db (.int n)
        = TaxonomyRAM.taxid_merged db (.str (toString n))
    ∧ TaxonomyRAM.updated_taxid db (.int n)
        = TaxonomyRAM.updated_taxid db (.str (toString n))
    ∧ TaxonomyRAM.lineage_taxids db fuel (.int n)
        = TaxonomyRAM.lineage_taxids db fuel (.str (toString n))
    ∧ TaxonomyRAM.plastid_genetic_code_for_taxid db fuel (.int n)
        = TaxonomyRAM.plastid_genetic_code_for_taxid db fuel (.str (toString n)) :=
  ⟨rfl, rfl, rfl, rfl, rfl, rfl, rfl⟩
